import Mathlib

/-!
Formal model of the Aegis classification-aware access control and redaction
engine (package aegis_common_schema), shallowly embedded in Lean 4.

The definitions below are translated from the Python source:
 * base.py                   : ClassificationLevel, Compartment
 * policy_obligations.py     : redaction rules, policies, decisions,
                               classification aggregation, RedactionEngine
 * access_control_engine.py  : AccessControlEngine.make_access_decision

Modelling conventions:
 * Python dicts are association lists (List (String × Value)) preserving
   insertion order; in-place mutation becomes functional update.
 * Runtime-generated fields (UUIDs, datetime stamps) that no decision logic
   reads are omitted; computed_at is kept as an abstract Nat tick because one
   property is about independence from it.
 * The HMAC-SHA256 primitive is a library call in the source
   (hmac.new(...).hexdigest()); it is modelled as an explicit function
   parameter hmacSha256Hex, so theorems about signatures quantify over every
   possible implementation of the primitive.
-/

namespace Aegis

/-- Classification levels from base.py (EO 13526 short codes). -/
inductive ClassificationLevel where
  | UNCLASSIFIED
  | CUI
  | CONFIDENTIAL
  | SECRET
  | TOP_SECRET
  | TS_SCI
  deriving DecidableEq

/-- Wire code of a classification level (the Python enum str value). -/
def ClassificationLevel.value : ClassificationLevel → String
  | .UNCLASSIFIED => "U"
  | .CUI => "CUI"
  | .CONFIDENTIAL => "C"
  | .SECRET => "S"
  | .TOP_SECRET => "TS"
  | .TS_SCI => "TS//SCI"

/-- Dominance rank of a classification level (base.py numeric_value). -/
def ClassificationLevel.numeric_value : ClassificationLevel → Nat
  | .UNCLASSIFIED => 0
  | .CUI => 1
  | .CONFIDENTIAL => 2
  | .SECRET => 3
  | .TOP_SECRET => 4
  | .TS_SCI => 5

/-- Compartment tags from base.py. -/
inductive Compartment where
  | NOFORN
  | NOCONTRACT
  | HUMINT
  | SIGINT
  | IMINT
  | TALENT_KEYHOLE
  | RUFF
  deriving DecidableEq

/-- Wire code of a compartment (the Python enum str value). -/
def Compartment.value : Compartment → String
  | .NOFORN => "NOFORN"
  | .NOCONTRACT => "NOCONTRACT"
  | .HUMINT => "HUMINT"
  | .SIGINT => "SIGINT"
  | .IMINT => "IMINT"
  | .TALENT_KEYHOLE => "TK"
  | .RUFF => "RUFF"

/-- JSON-like payload values (Python Any trees of dict/list/scalar). -/
inductive Value where
  | null
  | bool (b : Bool)
  | num (n : Int)
  | str (s : String)
  | list (items : List Value)
  | dict (entries : List (String × Value))

/-- Python truthiness of a payload value. -/
def Value.truthy : Value → Bool
  | .null => false
  | .bool b => b
  | .num n => n != 0
  | .str s => !s.isEmpty
  | .list items => !items.isEmpty
  | .dict entries => !entries.isEmpty

/-- Dictionary lookup, first matching key (Python dict keys are unique). -/
def dictGet (entries : List (String × Value)) (key : String) : Option Value :=
  match entries with
  | [] => none
  | (k, v) :: rest => if k = key then some v else dictGet rest key

/-- Dictionary update: replace the value at an existing key in place,
append at the end otherwise (Python dict assignment semantics). -/
def dictSet (entries : List (String × Value)) (key : String) (v : Value) :
    List (String × Value) :=
  match entries with
  | [] => [(key, v)]
  | (k, w) :: rest => if k = key then (k, v) :: rest else (k, w) :: dictSet rest key v

/-- Obligation kinds from policy_obligations.py. -/
inductive ObligationType where
  | MASK_FIELD
  | REDACT_PORTION
  | REQUIRE_MFA_STEP_UP
  | REQUIRE_APPROVAL
  | AUDIT_ACCESS
  | RESTRICT_EXPORT
  | RESTRICT_COPY
  | WATERMARK
  deriving DecidableEq

/-- Redaction strategies from policy_obligations.py. -/
inductive RedactionStrategy where
  | MASK_WITH_BRACKETS
  | MASK_WITH_ASTERISKS
  | MASK_WITH_HASH
  | REMOVE_FIELD
  | TRUNCATE
  deriving DecidableEq

/-- Policy scopes from policy_obligations.py. -/
inductive PolicyScope where
  | GLOBAL
  | ROLE_BASED
  | ATTRIBUTE_BASED
  | RESOURCE_BASED
  deriving DecidableEq

/-- Field redaction rule (policy_obligations.py FieldRedactionRule). -/
structure FieldRedactionRule where
  field_path : String
  field_type : String
  strategy : RedactionStrategy
  required_clearance : Option ClassificationLevel
  required_compartments : List Compartment
  description : Option String
  tags : List (String × String)
  deriving DecidableEq

/-- FieldRedactionRule.should_redact: fire when the user clearance is below the
required clearance (when one is set), or when the non-empty required
compartment set is not contained in the user compartments. -/
def FieldRedactionRule.should_redact (rule : FieldRedactionRule)
    (user_clearance : ClassificationLevel) (user_compartments : List Compartment) : Bool :=
  (match rule.required_clearance with
   | some rc => decide (user_clearance.numeric_value < rc.numeric_value)
   | none => false)
  || (!rule.required_compartments.isEmpty
      && !rule.required_compartments.all (fun c => user_compartments.contains c))

/-- FieldRedactionRule.apply_redaction: the replacement string for a leaf value
under the rule's strategy.  REMOVE_FIELD falls through to the default mask in
the source (the caller is expected to handle removal). -/
def FieldRedactionRule.apply_redaction (rule : FieldRedactionRule) (value : Value) : String :=
  match rule.strategy with
  | .MASK_WITH_BRACKETS => "[REDACTED]"
  | .MASK_WITH_ASTERISKS => "****"
  | .MASK_WITH_HASH => "#####"
  | .TRUNCATE =>
    match value with
    | .str s => if 6 < s.length then s.take 3 ++ "..." ++ s.drop (s.length - 3) else "[REDACTED]"
    | _ => "[REDACTED]"
  | .REMOVE_FIELD => "[REDACTED]"

/-- Portion redaction rule (policy_obligations.py PortionRedactionRule). -/
structure PortionRedactionRule where
  portion_name : String
  portion_marking : String
  minimum_clearance : ClassificationLevel
  required_compartments : List Compartment
  strategy : RedactionStrategy
  description : Option String
  tags : List (String × String)
  deriving DecidableEq

/-- PortionRedactionRule.should_redact. -/
def PortionRedactionRule.should_redact (rule : PortionRedactionRule)
    (user_clearance : ClassificationLevel) (user_compartments : List Compartment) : Bool :=
  decide (user_clearance.numeric_value < rule.minimum_clearance.numeric_value)
  || (!rule.required_compartments.isEmpty
      && !rule.required_compartments.all (fun c => user_compartments.contains c))

/-- Access obligation catalogue entry (policy_obligations.py AccessObligation).
Runtime-generated fields (obligation_id, created_at, created_by) are omitted;
nothing in the engine reads this record. -/
structure AccessObligation where
  obligation_type : ObligationType
  description : String
  triggered_when : String
  action : String
  action_params : List (String × Value)

/-- Classification policy (policy_obligations.py ClassificationPolicy).
Audit fields created_by and last_modified_by (UUIDs) are omitted. -/
structure ClassificationPolicy where
  policy_name : String
  policy_description : Option String
  field_redaction_rules : List FieldRedactionRule
  portion_redaction_rules : List PortionRedactionRule
  access_obligations : List AccessObligation
  scope : PolicyScope
  applicable_roles : List String
  is_active : Bool
  is_enforced : Bool

/-- Obligation attached to an access decision. -/
structure AccessDecisionObligation where
  obligation_type : ObligationType
  resource_field : Option String
  redaction_strategy : Option RedactionStrategy
  reason : String
  deriving DecidableEq

/-- Access decision record (policy_obligations.py AccessDecision).
Runtime-generated fields decision_id, decided_at and the constant decided_by
are omitted. -/
structure AccessDecision where
  allowed : Bool
  reason : String
  obligations : List AccessDecisionObligation
  highest_classification : Option ClassificationLevel
  portion_markings : List String
  user_clearance : ClassificationLevel
  user_compartments : List Compartment
  resource_classification : ClassificationLevel
  resource_compartments : List Compartment
  deriving DecidableEq

/-- Strict lexicographic order on character lists by code point, the order
Python uses to compare strings. -/
def charListLtb : List Char → List Char → Bool
  | [], [] => false
  | [], _ :: _ => true
  | _ :: _, [] => false
  | a :: as, b :: bs =>
    if a.toNat < b.toNat then true
    else if b.toNat < a.toNat then false
    else charListLtb as bs

/-- Strict lexicographic order on strings. -/
def strLtb (a b : String) : Bool := charListLtb a.data b.data

/-- Total lexicographic order on strings, as the negation of the reversed
strict order. -/
def strLeProp (a b : String) : Prop := strLtb b a = false

instance : DecidableRel strLeProp :=
  fun a b => inferInstanceAs (Decidable (strLtb b a = false))

/-- Sort a list of strings ascending (Python sorted on str). -/
def sortStrings (l : List String) : List String :=
  List.insertionSort strLeProp l

/-- Comparison of compartments by their wire code (Python key=lambda x: x.value). -/
def compartmentLe (a b : Compartment) : Prop := strLeProp a.value b.value

instance : DecidableRel compartmentLe :=
  fun a b => inferInstanceAs (Decidable (strLeProp a.value b.value))

/-- Sort a list of compartments ascending by wire code. -/
def sortCompartments (l : List Compartment) : List Compartment :=
  List.insertionSort compartmentLe l

/-- Need-to-know check (AccessControlEngine._check_need_to_know).  A truthy
required_roles entry must share at least one role with the user.  A truthy
non-list required_roles raises TypeError in the source; the model is total and
returns true there, which no claim exercises (the schema makes it a list). -/
def check_need_to_know (user_roles : List String)
    (resource_attrs : List (String × Value)) : Bool :=
  if resource_attrs.isEmpty then true
  else
    match dictGet resource_attrs "required_roles" with
    | some v =>
      if v.truthy then
        match v with
        | .list rs => rs.any (fun r =>
            match r with
            | .str s => user_roles.contains s
            | _ => false)
        | _ => true
      else true
    | none => true

/-- Guard for step 5 of make_access_decision: the source first tests the
truthiness of the optional attrs dict, then calls _check_need_to_know. -/
def ntkDenied (user_roles : List String)
    (resource_need_to_know_attrs : Option (List (String × Value))) : Bool :=
  match resource_need_to_know_attrs with
  | some attrs => !attrs.isEmpty && !check_need_to_know user_roles attrs
  | none => false

/-- Denial decision record: the source constructs AccessDecision with
allowed=False and only reason plus the four snapshot fields, so obligations,
highest_classification and portion_markings take their declared defaults. -/
def denyDecision (reason : String) (user_clearance : ClassificationLevel)
    (user_compartments : List Compartment)
    (resource_classification : ClassificationLevel)
    (resource_compartments : List Compartment) : AccessDecision :=
  { allowed := false
    reason := reason
    obligations := []
    highest_classification := none
    portion_markings := []
    user_clearance := user_clearance
    user_compartments := user_compartments
    resource_classification := resource_classification
    resource_compartments := resource_compartments }

/-- Missing compartments listed in the compartment denial message: the set
difference resource minus user, sorted ascending by wire code. -/
def missingCompartments (resource_compartments user_compartments : List Compartment) :
    List Compartment :=
  sortCompartments ((resource_compartments.filter
    (fun c => !user_compartments.contains c)).dedup)

/-- AccessControlEngine.make_access_decision: the ordered fail-closed pipeline
account, session, clearance, compartments, need-to-know, then obligation
derivation on allow.  user_id is unused by the source body apart from being a
required argument. -/
def make_access_decision
    (user_id : Nat)
    (user_clearance : ClassificationLevel)
    (user_compartments : List Compartment)
    (user_roles : List String)
    (user_mfa_verified : Bool)
    (user_account_suspended : Bool)
    (resource_classification : ClassificationLevel)
    (resource_compartments : List Compartment)
    (resource_need_to_know_attrs : Option (List (String × Value)))
    (device_posture : String)
    (session_active : Bool) : AccessDecision :=
  let _ := user_id
  if user_account_suspended then
    denyDecision "User account is suspended" user_clearance user_compartments
      resource_classification resource_compartments
  else if !session_active then
    denyDecision "Session is not active" user_clearance user_compartments
      resource_classification resource_compartments
  else if user_clearance.numeric_value < resource_classification.numeric_value then
    denyDecision ("Insufficient clearance: user has " ++ user_clearance.value
        ++ ", resource requires " ++ resource_classification.value)
      user_clearance user_compartments resource_classification resource_compartments
  else if !resource_compartments.all (fun c => user_compartments.contains c) then
    denyDecision ("Missing compartments: " ++ String.intercalate ", "
        ((missingCompartments resource_compartments user_compartments).map Compartment.value))
      user_clearance user_compartments resource_classification resource_compartments
  else if ntkDenied user_roles resource_need_to_know_attrs then
    denyDecision "Need-to-know denied" user_clearance user_compartments
      resource_classification resource_compartments
  else
    let obligations : List AccessDecisionObligation :=
      (if device_posture = "untrusted"
          ∧ ClassificationLevel.SECRET.numeric_value ≤ resource_classification.numeric_value then
        [{ obligation_type := ObligationType.REQUIRE_MFA_STEP_UP
           resource_field := none
           redaction_strategy := none
           reason := "Device is untrusted; Secret+ data requires additional MFA" }]
      else [])
      ++ (if ClassificationLevel.SECRET.numeric_value ≤ resource_classification.numeric_value
            ∧ ¬ user_mfa_verified then
        [{ obligation_type := ObligationType.REQUIRE_MFA_STEP_UP
           resource_field := none
           redaction_strategy := none
           reason := "Secret+ data requires MFA verification" }]
      else [])
      ++ (if ClassificationLevel.CUI.numeric_value ≤ resource_classification.numeric_value then
        [{ obligation_type := ObligationType.AUDIT_ACCESS
           resource_field := none
           redaction_strategy := none
           reason := "Accessing " ++ resource_classification.value ++ " data" }]
      else [])
    { allowed := true
      reason := "All access control checks passed"
      obligations := obligations
      highest_classification := some resource_classification
      portion_markings := resource_compartments.map (fun c => "//" ++ c.value)
      user_clearance := user_clearance
      user_compartments := user_compartments
      resource_classification := resource_classification
      resource_compartments := resource_compartments }

/-- Entity view consumed by ClassificationAggregationResult.aggregate: the
source reads the keys classification (optional), portion_markings and
compartments (absent or empty keys contribute nothing, so both are modelled
as a possibly empty list). -/
structure AggregationEntity where
  classification : Option ClassificationLevel
  portion_markings : List String
  compartments : List Compartment
  deriving DecidableEq

/-- One step of the running maximum by dominance rank. -/
def maxStep (acc c : ClassificationLevel) : ClassificationLevel :=
  if acc.numeric_value < c.numeric_value then c else acc

/-- Highest classification of a list, defaulting to UNCLASSIFIED (the Python
max(classifications, key=numeric_value, default=UNCLASSIFIED): numeric_value
is injective on the enum, so first-maximum tie-breaking never matters). -/
def highestClassification (l : List ClassificationLevel) : ClassificationLevel :=
  l.foldl maxStep ClassificationLevel.UNCLASSIFIED

/-- Aggregated banner record (policy_obligations.py
ClassificationAggregationResult).  computed_at is an abstract clock tick. -/
structure ClassificationAggregationResult where
  highest_classification : ClassificationLevel
  all_classifications : List ClassificationLevel
  all_portion_markings : List String
  all_compartments : List Compartment
  computed_at : Nat
  computed_from_entity_count : Nat
  signature : Option String
  signature_algorithm : String

/-- Hex digit used by the JSON unicode escapes of json.dumps. -/
def hexDigit (n : Nat) : Char :=
  if n < 10 then Char.ofNat (48 + n) else Char.ofNat (87 + n)

/-- Four lowercase hex digits. -/
def hex4 (n : Nat) : String :=
  String.mk [hexDigit (n / 4096 % 16), hexDigit (n / 256 % 16),
    hexDigit (n / 16 % 16), hexDigit (n % 16)]

/-- Escape of one character under json.dumps with its default ensure_ascii:
the named short escapes, unicode escapes for the other characters outside
0x20..0x7e (with surrogate pairs beyond the basic plane), everything else
verbatim. -/
def jsonEscapeChar (c : Char) : String :=
  if c = '"' then "\\\""
  else if c = '\\' then "\\\\"
  else if c = '\n' then "\\n"
  else if c = '\r' then "\\r"
  else if c = '\t' then "\\t"
  else if c.toNat = 8 then "\\b"
  else if c.toNat = 12 then "\\f"
  else if c.toNat < 32 ∨ 126 < c.toNat then
    if c.toNat < 65536 then "\\u" ++ hex4 c.toNat
    else
      let n := c.toNat - 65536
      "\\u" ++ hex4 (55296 + n / 1024) ++ "\\u" ++ hex4 (56320 + n % 1024)
  else String.singleton c

/-- JSON rendering of a string literal. -/
def jsonString (s : String) : String :=
  "\"" ++ String.join (s.toList.map jsonEscapeChar) ++ "\""

/-- JSON rendering of an array of strings without whitespace. -/
def jsonStringArray (l : List String) : String :=
  "[" ++ String.intercalate "," (l.map jsonString) ++ "]"

/-- Canonical signing payload of compute_signature: json.dumps of the four
component dict with sort_keys=True and separators (",", ":").  The sorted key
order is all_compartments, all_portion_markings, count,
highest_classification; the method re-sorts both lists itself. -/
def canonicalSignaturePayload (r : ClassificationAggregationResult) : String :=
  "\x7b\"all_compartments\":" ++ jsonStringArray (sortStrings (r.all_compartments.map Compartment.value))
    ++ ",\"all_portion_markings\":" ++ jsonStringArray (sortStrings r.all_portion_markings)
    ++ ",\"count\":" ++ toString r.computed_from_entity_count
    ++ ",\"highest_classification\":" ++ jsonString r.highest_classification.value
    ++ "\x7d"

/-- ClassificationAggregationResult.compute_signature: HMAC-SHA256 hex digest
of the canonical payload under the signing key.  The digest primitive is the
hmacSha256Hex parameter (key first, message second). -/
def compute_signature (hmacSha256Hex : String → String → String)
    (r : ClassificationAggregationResult) (signing_key : String) : String :=
  hmacSha256Hex signing_key (canonicalSignaturePayload r)

/-- ClassificationAggregationResult.aggregate.  An empty signing key is falsy
in the source, so it yields no signature, like None. -/
def aggregate (hmacSha256Hex : String → String → String)
    (entities : List AggregationEntity) (signing_key : Option String) (now : Nat) :
    ClassificationAggregationResult :=
  let classifications := entities.filterMap (fun e => e.classification)
  let result : ClassificationAggregationResult :=
    { highest_classification := highestClassification classifications
      all_classifications := classifications
      all_portion_markings := sortStrings ((entities.flatMap (fun e => e.portion_markings)).dedup)
      all_compartments := sortCompartments ((entities.flatMap (fun e => e.compartments)).dedup)
      computed_at := now
      computed_from_entity_count := entities.length
      signature := none
      signature_algorithm := "hmac-sha256" }
  match signing_key with
  | some k =>
    if k.isEmpty then result
    else { result with signature := some (compute_signature hmacSha256Hex result k) }
  | none => result

/-- Suffix test on character lists (Python str.endswith). -/
def charListEndsWith (l suffix : List Char) : Bool :=
  if l.length < suffix.length then false
  else (l.drop (l.length - suffix.length)) == suffix

/-- Test whether a path segment ends with the three-character list-wildcard
suffix bracket, star, bracket. -/
def segmentIsWildcard (s : String) : Bool :=
  charListEndsWith s.data ['[', '*', ']']

/-- Split a character list on every dot, Python str.split semantics: no group
merging, and the empty input gives one empty group. -/
def splitCharsOnDot : List Char → List (List Char)
  | [] => [[]]
  | c :: rest =>
    let r := splitCharsOnDot rest
    if c = '.' then [] :: r
    else
      match r with
      | [] => [[c]]
      | g :: gs => (c :: g) :: gs

/-- Split a dotted field path into its segments (Python field_path.split over
the dot separator, the only separator the source uses). -/
def splitOnDot (s : String) : List String :=
  (splitCharsOnDot s.data).map (fun cs => String.mk cs)

/-- RedactionEngine._set_path_redacted: walk the dotted path through the
payload and replace the leaf, returning the updated payload and whether a
replacement happened.  A segment ending in the three characters bracket, star,
bracket is a list wildcard: the remaining path is applied to every element of
the list stored under the segment's key.  Any failing segment returns the
payload unchanged with false. -/
def setPathRedacted (current : Value) (parts : List String) (redactedValue : Value) :
    Value × Bool :=
  match parts with
  | [] => (current, false)
  | head :: tail =>
    if segmentIsWildcard head then
      match current with
      | .dict d =>
        match dictGet d (head.dropRight 3) with
        | some (.list items) =>
          let results := items.map (fun item => setPathRedacted item tail redactedValue)
          (.dict (dictSet d (head.dropRight 3) (.list (results.map Prod.fst))),
            results.any Prod.snd)
        | _ => (current, false)
      | _ => (current, false)
    else
      match current with
      | .dict d =>
        match dictGet d head with
        | some child =>
          if tail.isEmpty then (.dict (dictSet d head redactedValue), true)
          else
            let r := setPathRedacted child tail redactedValue
            (.dict (dictSet d head r.fst), r.snd)
        | none => (current, false)
      | _ => (current, false)

/-- RedactionEngine.redact_field: apply every firing rule whose field_path
equals the requested path; each one injects apply_redaction(None) at the path
(the source passes None, not the leaf value, to apply_redaction). -/
def redact_field (policy : ClassificationPolicy) (data : Value) (field_path : String)
    (user_clearance : ClassificationLevel) (user_compartments : List Compartment) : Value :=
  policy.field_redaction_rules.foldl
    (fun d rule =>
      if rule.field_path ≠ field_path then d
      else if !rule.should_redact user_clearance user_compartments then d
      else (setPathRedacted d (splitOnDot field_path)
        (Value.str (rule.apply_redaction Value.null))).fst)
    data

/-- RedactionEngine.compute_obligations: a MASK_FIELD obligation for every
firing field rule, then a REDACT_PORTION obligation for every firing portion
rule, in policy declaration order.  The source never consults
policy.is_enforced or policy.is_active here. -/
def compute_obligations (policy : ClassificationPolicy)
    (user_clearance : ClassificationLevel) (user_compartments : List Compartment) :
    List AccessDecisionObligation :=
  (policy.field_redaction_rules.filter
      (fun r => r.should_redact user_clearance user_compartments)).map
    (fun r =>
      { obligation_type := ObligationType.MASK_FIELD
        resource_field := some r.field_path
        redaction_strategy := some r.strategy
        reason := "Redaction rule applies" })
  ++ (policy.portion_redaction_rules.filter
      (fun r => r.should_redact user_clearance user_compartments)).map
    (fun r =>
      { obligation_type := ObligationType.REDACT_PORTION
        resource_field := some r.portion_name
        redaction_strategy := some r.strategy
        reason := "Portion redaction rule applies" })

/-! Order facts about the lexicographic orders backing the sorting helpers. -/

theorem charListLtb_asymm : ∀ {x y : List Char},
    charListLtb x y = true → charListLtb y x = false
  | [], [], h => by simp [charListLtb] at h
  | [], _ :: _, _ => rfl
  | _ :: _, [], h => by simp [charListLtb] at h
  | a :: as, b :: bs, h => by
    by_cases hab : a.toNat < b.toNat
    · have hba : ¬ b.toNat < a.toNat := by omega
      simp [charListLtb, hab, hba]
    · by_cases hba : b.toNat < a.toNat
      · simp [charListLtb, hab, hba] at h
      · have ih := charListLtb_asymm (x := as) (y := bs)
        simp [charListLtb, hab, hba] at h ⊢
        exact ih h

theorem charListLtb_trans : ∀ {x y z : List Char},
    charListLtb x y = true → charListLtb y z = true → charListLtb x z = true
  | [], [], _, h1, _ => by simp [charListLtb] at h1
  | [], _ :: _, [], _, h2 => by simp [charListLtb] at h2
  | [], _ :: _, _ :: _, _, _ => rfl
  | _ :: _, [], _, h1, _ => by simp [charListLtb] at h1
  | _ :: _, _ :: _, [], _, h2 => by simp [charListLtb] at h2
  | a :: as, b :: bs, c :: cs, h1, h2 => by
    by_cases hab : a.toNat < b.toNat
    · by_cases hbc : b.toNat < c.toNat
      · have hac : a.toNat < c.toNat := by omega
        simp [charListLtb, hac]
      · by_cases hcb : c.toNat < b.toNat
        · simp [charListLtb, hbc, hcb] at h2
        · have hac : a.toNat < c.toNat := by omega
          simp [charListLtb, hac]
    · by_cases hba : b.toNat < a.toNat
      · simp [charListLtb, hab, hba] at h1
      · by_cases hbc : b.toNat < c.toNat
        · have hac : a.toNat < c.toNat := by omega
          simp [charListLtb, hac]
        · by_cases hcb : c.toNat < b.toNat
          · simp [charListLtb, hbc, hcb] at h2
          · have ih := charListLtb_trans (x := as) (y := bs) (z := cs)
            have hac : ¬ a.toNat < c.toNat := by omega
            have hca : ¬ c.toNat < a.toNat := by omega
            simp [charListLtb, hab, hba, hbc, hcb, hac, hca] at h1 h2 ⊢
            exact ih h1 h2

theorem charListLtb_eq_of_not : ∀ {x y : List Char},
    charListLtb x y = false → charListLtb y x = false → x = y
  | [], [], _, _ => rfl
  | [], _ :: _, h1, _ => by simp [charListLtb] at h1
  | _ :: _, [], _, h2 => by simp [charListLtb] at h2
  | a :: as, b :: bs, h1, h2 => by
    by_cases hab : a.toNat < b.toNat
    · simp [charListLtb, hab] at h1
    · by_cases hba : b.toNat < a.toNat
      · simp [charListLtb, hba] at h2
      · have hhead : a = b := by
          apply Char.ext
          apply UInt32.ext
          have : a.toNat = b.toNat := by omega
          simpa [Char.toNat] using this
        have ih := charListLtb_eq_of_not (x := as) (y := bs)
        simp [charListLtb, hab, hba] at h1 h2
        rw [hhead, ih h1 h2]

instance : IsTotal String strLeProp := ⟨by
  intro a b
  unfold strLeProp strLtb
  cases hab : charListLtb a.data b.data
  · right; rfl
  · left; exact charListLtb_asymm hab⟩

instance : IsTrans String strLeProp := ⟨by
  intro a b c h1 h2
  unfold strLeProp strLtb at h1 h2 ⊢
  cases hca : charListLtb c.data a.data
  · rfl
  · cases hab : charListLtb a.data b.data
    · have : a.data = b.data := charListLtb_eq_of_not hab h1
      rw [this] at hca
      rw [hca] at h2
      exact h2
    · have := charListLtb_trans hca hab
      rw [this] at h2
      exact h2⟩

instance : IsAntisymm String strLeProp := ⟨by
  intro a b h1 h2
  unfold strLeProp strLtb at h1 h2
  exact String.ext (charListLtb_eq_of_not h2 h1)⟩

/-- The compartment wire codes are pairwise distinct. -/
theorem compartment_value_injective {a b : Compartment} (h : a.value = b.value) : a = b := by
  cases a <;> cases b <;> simp_all [Compartment.value]

instance : IsTotal Compartment compartmentLe :=
  ⟨fun a b => IsTotal.total (r := strLeProp) a.value b.value⟩

instance : IsTrans Compartment compartmentLe :=
  ⟨fun _ _ _ h1 h2 => IsTrans.trans (r := strLeProp) _ _ _ h1 h2⟩

instance : IsAntisymm Compartment compartmentLe :=
  ⟨fun a b h1 h2 => compartment_value_injective
    (IsAntisymm.antisymm (r := strLeProp) _ _ h1 h2)⟩

/-- Sorting strings is invariant under permutation of the input. -/
theorem sortStrings_eq_of_perm {l₁ l₂ : List String} (h : l₁.Perm l₂) :
    sortStrings l₁ = sortStrings l₂ :=
  List.eq_of_perm_of_sorted
    ((List.perm_insertionSort _ _).trans (h.trans (List.perm_insertionSort _ _).symm))
    (List.sorted_insertionSort _ _) (List.sorted_insertionSort _ _)

/-- Sorting compartments is invariant under permutation of the input. -/
theorem sortCompartments_eq_of_perm {l₁ l₂ : List Compartment} (h : l₁.Perm l₂) :
    sortCompartments l₁ = sortCompartments l₂ :=
  List.eq_of_perm_of_sorted
    ((List.perm_insertionSort _ _).trans (h.trans (List.perm_insertionSort _ _).symm))
    (List.sorted_insertionSort _ _) (List.sorted_insertionSort _ _)

/-- C1: for every input, if the subject's account is suspended,
make_access_decision returns a decision with allowed false and reason
User account is suspended, regardless of every other subject and resource
field: the account-status check runs first and its denial short-circuits all
later checks. -/
theorem C1_suspended_account_denies_first
    (user_id : Nat) (user_clearance : ClassificationLevel)
    (user_compartments : List Compartment) (user_roles : List String)
    (user_mfa_verified user_account_suspended : Bool)
    (resource_classification : ClassificationLevel)
    (resource_compartments : List Compartment)
    (resource_need_to_know_attrs : Option (List (String × Value)))
    (device_posture : String) (session_active : Bool)
    (h : user_account_suspended = true) :
    (make_access_decision user_id user_clearance user_compartments user_roles
      user_mfa_verified user_account_suspended resource_classification
      resource_compartments resource_need_to_know_attrs device_posture
      session_active).allowed = false ∧
    (make_access_decision user_id user_clearance user_compartments user_roles
      user_mfa_verified user_account_suspended resource_classification
      resource_compartments resource_need_to_know_attrs device_posture
      session_active).reason = "User account is suspended" := by
  simp [make_access_decision, denyDecision, h]

/-- Witness for C1 at one concrete input with an expired session, an
insufficient clearance, missing compartments and an untrusted device: the
suspension still wins. -/
theorem C1_suspended_account_denies_first_witness :
    (true : Bool) = true ∧
    (make_access_decision 7 ClassificationLevel.UNCLASSIFIED [] []
      false true ClassificationLevel.TS_SCI [Compartment.HUMINT] none
      "untrusted" false).allowed = false ∧
    (make_access_decision 7 ClassificationLevel.UNCLASSIFIED [] []
      false true ClassificationLevel.TS_SCI [Compartment.HUMINT] none
      "untrusted" false).reason = "User account is suspended" :=
  ⟨rfl, C1_suspended_account_denies_first 7 ClassificationLevel.UNCLASSIFIED [] []
    false true ClassificationLevel.TS_SCI [Compartment.HUMINT] none
    "untrusted" false rfl⟩

/-- C2: when the account is not suspended and the session is active, a subject
whose clearance rank is strictly below the resource classification rank is
denied, with the exact reason string built from the two level codes (which in
particular starts with the words Insufficient clearance). -/
theorem C2_insufficient_clearance_denies
    (user_id : Nat) (user_clearance : ClassificationLevel)
    (user_compartments : List Compartment) (user_roles : List String)
    (user_mfa_verified user_account_suspended : Bool)
    (resource_classification : ClassificationLevel)
    (resource_compartments : List Compartment)
    (resource_need_to_know_attrs : Option (List (String × Value)))
    (device_posture : String) (session_active : Bool)
    (hsusp : user_account_suspended = false)
    (hsess : session_active = true)
    (hrank : user_clearance.numeric_value < resource_classification.numeric_value) :
    (make_access_decision user_id user_clearance user_compartments user_roles
      user_mfa_verified user_account_suspended resource_classification
      resource_compartments resource_need_to_know_attrs device_posture
      session_active).allowed = false ∧
    (make_access_decision user_id user_clearance user_compartments user_roles
      user_mfa_verified user_account_suspended resource_classification
      resource_compartments resource_need_to_know_attrs device_posture
      session_active).reason = "Insufficient clearance: user has "
        ++ user_clearance.value ++ ", resource requires "
        ++ resource_classification.value := by
  simp [make_access_decision, denyDecision, hsusp, hsess, hrank]

/-- Witness for C2: a SECRET subject reading a TOP_SECRET resource. -/
theorem C2_insufficient_clearance_denies_witness :
    (false : Bool) = false ∧ (true : Bool) = true ∧
    ClassificationLevel.SECRET.numeric_value
      < ClassificationLevel.TOP_SECRET.numeric_value ∧
    (make_access_decision 1 ClassificationLevel.SECRET [Compartment.NOFORN]
      ["analyst"] true false ClassificationLevel.TOP_SECRET [Compartment.NOFORN]
      none "trusted" true).allowed = false ∧
    (make_access_decision 1 ClassificationLevel.SECRET [Compartment.NOFORN]
      ["analyst"] true false ClassificationLevel.TOP_SECRET [Compartment.NOFORN]
      none "trusted" true).reason = "Insufficient clearance: user has "
        ++ ClassificationLevel.SECRET.value ++ ", resource requires "
        ++ ClassificationLevel.TOP_SECRET.value :=
  ⟨rfl, rfl, by decide,
    C2_insufficient_clearance_denies 1 ClassificationLevel.SECRET
      [Compartment.NOFORN] ["analyst"] true false ClassificationLevel.TOP_SECRET
      [Compartment.NOFORN] none "trusted" true rfl rfl (by decide)⟩

/-- C3: when the account, session and clearance checks pass but the resource
compartments are not contained in the subject compartments, the decision is a
denial whose reason lists exactly the compartment codes missing from the
subject, each once, sorted in strictly ascending lexicographic code order and
comma-separated. -/
theorem C3_missing_compartments_denies
    (user_id : Nat) (user_clearance : ClassificationLevel)
    (user_compartments : List Compartment) (user_roles : List String)
    (user_mfa_verified user_account_suspended : Bool)
    (resource_classification : ClassificationLevel)
    (resource_compartments : List Compartment)
    (resource_need_to_know_attrs : Option (List (String × Value)))
    (device_posture : String) (session_active : Bool)
    (hsusp : user_account_suspended = false)
    (hsess : session_active = true)
    (hrank : ¬ user_clearance.numeric_value < resource_classification.numeric_value)
    (hsub : ¬ ∀ c ∈ resource_compartments, c ∈ user_compartments) :
    ∃ ms : List Compartment,
      (make_access_decision user_id user_clearance user_compartments user_roles
        user_mfa_verified user_account_suspended resource_classification
        resource_compartments resource_need_to_know_attrs device_posture
        session_active).allowed = false ∧
      (make_access_decision user_id user_clearance user_compartments user_roles
        user_mfa_verified user_account_suspended resource_classification
        resource_compartments resource_need_to_know_attrs device_posture
        session_active).reason = "Missing compartments: "
          ++ String.intercalate ", " (ms.map Compartment.value) ∧
      (∀ c, c ∈ ms ↔ (c ∈ resource_compartments ∧ c ∉ user_compartments)) ∧
      ms.Pairwise (fun a b => strLtb a.value b.value = true) := by
  have hex : ∃ c ∈ resource_compartments, c ∉ user_compartments := by
    push_neg at hsub
    exact hsub
  refine ⟨missingCompartments resource_compartments user_compartments, ?_, ?_, ?_, ?_⟩
  · simp [make_access_decision, denyDecision, hsusp, hsess, hrank, hex]
  · simp [make_access_decision, denyDecision, hsusp, hsess, hrank, hex]
  · intro c
    unfold missingCompartments sortCompartments
    rw [(List.perm_insertionSort _ _).mem_iff]
    simp [List.mem_dedup, List.mem_filter]
  · have hsorted : (missingCompartments resource_compartments
        user_compartments).Pairwise compartmentLe :=
      List.sorted_insertionSort _ _
    have hnodup : (missingCompartments resource_compartments
        user_compartments).Nodup :=
      ((List.perm_insertionSort _ _).nodup_iff).mpr (List.nodup_dedup _)
    refine (hsorted.and hnodup).imp ?_
    rintro a b ⟨hle, hne⟩
    cases hab : strLtb a.value b.value
    · exact absurd (compartment_value_injective
        (String.ext (charListLtb_eq_of_not hab hle))) hne
    · rfl

/-- Witness for C3: a SECRET subject holding only NOFORN reads a SECRET
resource tagged NOFORN and HUMINT. -/
theorem C3_missing_compartments_denies_witness :
    (¬ ClassificationLevel.SECRET.numeric_value
        < ClassificationLevel.SECRET.numeric_value) ∧
    (¬ ∀ c ∈ [Compartment.NOFORN, Compartment.HUMINT],
        c ∈ [Compartment.NOFORN]) ∧
    (∃ ms : List Compartment,
      (make_access_decision 2 ClassificationLevel.SECRET [Compartment.NOFORN]
        ["analyst"] true false ClassificationLevel.SECRET
        [Compartment.NOFORN, Compartment.HUMINT] none "trusted"
        true).allowed = false ∧
      (make_access_decision 2 ClassificationLevel.SECRET [Compartment.NOFORN]
        ["analyst"] true false ClassificationLevel.SECRET
        [Compartment.NOFORN, Compartment.HUMINT] none "trusted"
        true).reason = "Missing compartments: "
          ++ String.intercalate ", " (ms.map Compartment.value) ∧
      (∀ c, c ∈ ms ↔ (c ∈ [Compartment.NOFORN, Compartment.HUMINT]
        ∧ c ∉ [Compartment.NOFORN])) ∧
      ms.Pairwise (fun a b => strLtb a.value b.value = true)) :=
  ⟨by decide, by decide,
    C3_missing_compartments_denies 2 ClassificationLevel.SECRET
      [Compartment.NOFORN] ["analyst"] true false ClassificationLevel.SECRET
      [Compartment.NOFORN, Compartment.HUMINT] none "trusted" true
      rfl rfl (by decide) (by decide)⟩

/-- C10: every denied decision carries an empty obligations list, no highest
classification and an empty portion-markings list; those fields are only
populated on allowed decisions. -/
theorem C10_denied_decision_carries_no_grant_data
    (user_id : Nat) (user_clearance : ClassificationLevel)
    (user_compartments : List Compartment) (user_roles : List String)
    (user_mfa_verified user_account_suspended : Bool)
    (resource_classification : ClassificationLevel)
    (resource_compartments : List Compartment)
    (resource_need_to_know_attrs : Option (List (String × Value)))
    (device_posture : String) (session_active : Bool)
    (h : (make_access_decision user_id user_clearance user_compartments user_roles
      user_mfa_verified user_account_suspended resource_classification
      resource_compartments resource_need_to_know_attrs device_posture
      session_active).allowed = false) :
    (make_access_decision user_id user_clearance user_compartments user_roles
      user_mfa_verified user_account_suspended resource_classification
      resource_compartments resource_need_to_know_attrs device_posture
      session_active).obligations = [] ∧
    (make_access_decision user_id user_clearance user_compartments user_roles
      user_mfa_verified user_account_suspended resource_classification
      resource_compartments resource_need_to_know_attrs device_posture
      session_active).highest_classification = none ∧
    (make_access_decision user_id user_clearance user_compartments user_roles
      user_mfa_verified user_account_suspended resource_classification
      resource_compartments resource_need_to_know_attrs device_posture
      session_active).portion_markings = [] := by
  unfold make_access_decision at h ⊢
  split_ifs at h ⊢ <;> simp_all [denyDecision]

/-- Witness for C10 at a denial caused by a suspended account. -/
theorem C10_denied_decision_carries_no_grant_data_witness :
    (make_access_decision 3 ClassificationLevel.TS_SCI [Compartment.HUMINT]
      ["admin"] true true ClassificationLevel.UNCLASSIFIED [] none "trusted"
      true).allowed = false ∧
    (make_access_decision 3 ClassificationLevel.TS_SCI [Compartment.HUMINT]
      ["admin"] true true ClassificationLevel.UNCLASSIFIED [] none "trusted"
      true).obligations = [] ∧
    (make_access_decision 3 ClassificationLevel.TS_SCI [Compartment.HUMINT]
      ["admin"] true true ClassificationLevel.UNCLASSIFIED [] none "trusted"
      true).highest_classification = none ∧
    (make_access_decision 3 ClassificationLevel.TS_SCI [Compartment.HUMINT]
      ["admin"] true true ClassificationLevel.UNCLASSIFIED [] none "trusted"
      true).portion_markings = [] :=
  ⟨rfl, C10_denied_decision_carries_no_grant_data 3 ClassificationLevel.TS_SCI
    [Compartment.HUMINT] ["admin"] true true ClassificationLevel.UNCLASSIFIED
    [] none "trusted" true rfl⟩

/-- C7: every allowed decision carries exactly three candidate obligations in
fixed order: the untrusted-device MFA step-up (iff the device posture is
untrusted and the resource is SECRET or above), then the missing-MFA step-up
(iff the resource is SECRET or above and the subject is not MFA-verified),
then the audit obligation (iff the resource is CUI or above); nothing else. -/
theorem C7_allowed_obligations_fixed_order
    (user_id : Nat) (user_clearance : ClassificationLevel)
    (user_compartments : List Compartment) (user_roles : List String)
    (user_mfa_verified user_account_suspended : Bool)
    (resource_classification : ClassificationLevel)
    (resource_compartments : List Compartment)
    (resource_need_to_know_attrs : Option (List (String × Value)))
    (device_posture : String) (session_active : Bool)
    (h : (make_access_decision user_id user_clearance user_compartments user_roles
      user_mfa_verified user_account_suspended resource_classification
      resource_compartments resource_need_to_know_attrs device_posture
      session_active).allowed = true) :
    (make_access_decision user_id user_clearance user_compartments user_roles
      user_mfa_verified user_account_suspended resource_classification
      resource_compartments resource_need_to_know_attrs device_posture
      session_active).obligations =
      (if device_posture = "untrusted" ∧ resource_classification.numeric_value
            ≥ ClassificationLevel.SECRET.numeric_value then
        [{ obligation_type := ObligationType.REQUIRE_MFA_STEP_UP
           resource_field := none
           redaction_strategy := none
           reason := "Device is untrusted; Secret+ data requires additional MFA" }]
      else [])
      ++ (if resource_classification.numeric_value
            ≥ ClassificationLevel.SECRET.numeric_value ∧ ¬ user_mfa_verified then
        [{ obligation_type := ObligationType.REQUIRE_MFA_STEP_UP
           resource_field := none
           redaction_strategy := none
           reason := "Secret+ data requires MFA verification" }]
      else [])
      ++ (if resource_classification.numeric_value
            ≥ ClassificationLevel.CUI.numeric_value then
        [{ obligation_type := ObligationType.AUDIT_ACCESS
           resource_field := none
           redaction_strategy := none
           reason := "Accessing " ++ resource_classification.value ++ " data" }]
      else []) := by
  simp only [ge_iff_le]
  unfold make_access_decision at h ⊢
  split_ifs at h ⊢ <;> simp_all [denyDecision]

/-- Witness for C7: an untrusted device reading SECRET data without MFA gets
both step-up obligations followed by the audit obligation. -/
theorem C7_allowed_obligations_fixed_order_witness :
    (make_access_decision 4 ClassificationLevel.SECRET [] ["analyst"] false
      false ClassificationLevel.SECRET [] none "untrusted" true).allowed = true ∧
    (make_access_decision 4 ClassificationLevel.SECRET [] ["analyst"] false
      false ClassificationLevel.SECRET [] none "untrusted" true).obligations =
      [{ obligation_type := ObligationType.REQUIRE_MFA_STEP_UP
         resource_field := none
         redaction_strategy := none
         reason := "Device is untrusted; Secret+ data requires additional MFA" },
       { obligation_type := ObligationType.REQUIRE_MFA_STEP_UP
         resource_field := none
         redaction_strategy := none
         reason := "Secret+ data requires MFA verification" },
       { obligation_type := ObligationType.AUDIT_ACCESS
         resource_field := none
         redaction_strategy := none
         reason := "Accessing " ++ ClassificationLevel.SECRET.value ++ " data" }] :=
  ⟨rfl, (C7_allowed_obligations_fixed_order 4 ClassificationLevel.SECRET []
    ["analyst"] false false ClassificationLevel.SECRET [] none "untrusted"
    true rfl).trans (by decide)⟩

/-- C5: should_redact fires exactly when the rule has a required clearance
strictly above the subject's, or a non-empty required compartment set not
contained in the subject's compartments; either deficiency alone fires a rule
carrying both requirements, and a rule with neither requirement never fires. -/
theorem C5_should_redact_or_semantics
    (rule : FieldRedactionRule) (user_clearance : ClassificationLevel)
    (user_compartments : List Compartment) :
    rule.should_redact user_clearance user_compartments = true ↔
      ((∃ rc, rule.required_clearance = some rc
          ∧ user_clearance.numeric_value < rc.numeric_value)
        ∨ (rule.required_compartments ≠ []
          ∧ ¬ ∀ c ∈ rule.required_compartments, c ∈ user_compartments)) := by
  unfold FieldRedactionRule.should_redact
  cases hrc : rule.required_clearance with
  | none => simp [List.isEmpty_iff]
  | some rc => simp [List.isEmpty_iff]

/-- C6: contrary to the spec invariant, compute_obligations never consults
is_enforced: its output is invariant under flipping the flag, and a concrete
unenforced (shadow-mode) policy whose single field rule fires still emits a
MASK_FIELD obligation derived solely from that policy. -/
theorem C6_unenforced_policy_still_emits_obligations :
    (∀ (policy : ClassificationPolicy) (b : Bool) (uc : ClassificationLevel)
        (ucs : List Compartment),
      compute_obligations { policy with is_enforced := b } uc ucs
        = compute_obligations policy uc ucs) ∧
    compute_obligations
      { policy_name := "Shadow"
        policy_description := none
        field_redaction_rules := [{
          field_path := "user.email"
          field_type := "email"
          strategy := RedactionStrategy.MASK_WITH_BRACKETS
          required_clearance := some ClassificationLevel.SECRET
          required_compartments := []
          description := none
          tags := [] }]
        portion_redaction_rules := []
        access_obligations := []
        scope := PolicyScope.GLOBAL
        applicable_roles := []
        is_active := true
        is_enforced := false }
      ClassificationLevel.UNCLASSIFIED []
      = [{ obligation_type := ObligationType.MASK_FIELD
           resource_field := some "user.email"
           redaction_strategy := some RedactionStrategy.MASK_WITH_BRACKETS
           reason := "Redaction rule applies" }] :=
  ⟨fun _ _ _ _ => rfl, rfl⟩

/-- C9 counterexample: through the redaction engine, a firing TRUNCATE rule on
a string leaf longer than six characters replaces the leaf with the literal
[REDACTED] rather than with its first three characters, an ellipsis and its
last three characters, because redact_field hands None to apply_redaction. -/
theorem C9_truncate_via_engine_counterexample :
    (6 < ("alice@agency.gov" : String).length) ∧
    redact_field
      { policy_name := "T"
        policy_description := none
        field_redaction_rules := [{
          field_path := "user.email"
          field_type := "email"
          strategy := RedactionStrategy.TRUNCATE
          required_clearance := some ClassificationLevel.SECRET
          required_compartments := []
          description := none
          tags := [] }]
        portion_redaction_rules := []
        access_obligations := []
        scope := PolicyScope.GLOBAL
        applicable_roles := []
        is_active := true
        is_enforced := true }
      (Value.dict [("user", Value.dict [("email", Value.str "alice@agency.gov")])])
      "user.email" ClassificationLevel.UNCLASSIFIED []
      = Value.dict [("user", Value.dict [("email", Value.str "[REDACTED]")])] ∧
    ("[REDACTED]" : String) ≠ "ali" ++ "..." ++ "gov" :=
  ⟨by decide, rfl, by decide⟩

/-- C9 amended: apply_redaction itself truncates a string of length greater
than six to its first three characters, an ellipsis and its last three
characters, and returns [REDACTED] for every other value; but
redact_field always invokes apply_redaction on None, so through the engine a
firing TRUNCATE rule always injects the [REDACTED] literal at the path,
whatever the leaf held. -/
theorem C9_truncate_amended (rule : FieldRedactionRule)
    (hstrat : rule.strategy = RedactionStrategy.TRUNCATE) :
    (∀ s : String, 6 < s.length →
      rule.apply_redaction (Value.str s)
        = s.take 3 ++ "..." ++ s.drop (s.length - 3)) ∧
    (∀ s : String, ¬ 6 < s.length →
      rule.apply_redaction (Value.str s) = "[REDACTED]") ∧
    (∀ v : Value, (∀ s, v ≠ Value.str s) → rule.apply_redaction v = "[REDACTED]") ∧
    (∀ (policy : ClassificationPolicy) (data : Value)
        (uc : ClassificationLevel) (ucs : List Compartment),
      policy.field_redaction_rules = [rule] →
      rule.should_redact uc ucs = true →
      redact_field policy data rule.field_path uc ucs
        = (setPathRedacted data (splitOnDot rule.field_path)
            (Value.str "[REDACTED]")).fst) := by
  refine ⟨?_, ?_, ?_, ?_⟩
  · intro s hs
    simp [FieldRedactionRule.apply_redaction, hstrat, hs]
  · intro s hs
    simp [FieldRedactionRule.apply_redaction, hstrat, hs]
  · intro v hv
    unfold FieldRedactionRule.apply_redaction
    rw [hstrat]
    cases v with
    | str s => exact absurd rfl (hv s)
    | null => rfl
    | bool b => rfl
    | num n => rfl
    | list items => rfl
    | dict entries => rfl
  · intro policy data uc ucs hrules hfire
    unfold redact_field
    rw [hrules]
    simp [hfire, FieldRedactionRule.apply_redaction, hstrat]

/-- Witness for C9 amended at a concrete TRUNCATE rule and a sixteen-character
address. -/
theorem C9_truncate_amended_witness :
    ({ field_path := "user.email"
       field_type := "email"
       strategy := RedactionStrategy.TRUNCATE
       required_clearance := some ClassificationLevel.SECRET
       required_compartments := []
       description := none
       tags := [] } : FieldRedactionRule).strategy = RedactionStrategy.TRUNCATE ∧
    (6 < ("alice@agency.gov" : String).length) ∧
    ({ field_path := "user.email"
       field_type := "email"
       strategy := RedactionStrategy.TRUNCATE
       required_clearance := some ClassificationLevel.SECRET
       required_compartments := []
       description := none
       tags := [] } : FieldRedactionRule).apply_redaction
        (Value.str "alice@agency.gov")
      = ("alice@agency.gov" : String).take 3 ++ "..."
        ++ ("alice@agency.gov" : String).drop (("alice@agency.gov" : String).length - 3) :=
  ⟨rfl, by decide, (C9_truncate_amended _ rfl).1 "alice@agency.gov" (by decide)⟩

/-- Writing back the value already stored at a key leaves a dictionary
unchanged. -/
theorem dictGet_dictSet_self : ∀ (d : List (String × Value)) (k : String) (w : Value),
    dictGet d k = some w → dictSet d k w = d
  | [], k, w, h => by simp [dictGet] at h
  | (k', v') :: rest, k, w, h => by
    by_cases hk : k' = k
    · subst hk
      simp [dictGet] at h
      simp [dictSet, h]
    · simp [dictGet, hk] at h
      simp [dictSet, hk, dictGet_dictSet_self rest k w h]

/-- When path resolution reports no change, the returned payload is the input
payload: failing segments are skipped silently. -/
theorem setPathRedacted_skip_unchanged (v : Value) :
    ∀ (parts : List String) (current : Value),
      (setPathRedacted current parts v).snd = false →
      (setPathRedacted current parts v).fst = current := by
  intro parts
  induction parts with
  | nil => intro current _; rfl
  | cons head tail ih =>
    intro current h
    cases hw : segmentIsWildcard head with
    | true =>
      cases current with
      | dict d =>
        cases hg : dictGet d (head.dropRight 3) with
        | none => simp [setPathRedacted, hw, hg]
        | some w =>
          cases w with
          | list items =>
            simp only [setPathRedacted, hw, hg, if_true] at h ⊢
            have hitems : ∀ it ∈ items, (setPathRedacted it tail v).snd = false := by
              intro it hit
              have hmem := List.mem_map_of_mem
                (fun item => setPathRedacted item tail v) hit
              have := List.any_eq_false.mp h _ hmem
              simpa using this
            have hmap : ∀ l : List Value,
                (∀ it ∈ l, (setPathRedacted it tail v).snd = false) →
                (l.map (fun item => setPathRedacted item tail v)).map Prod.fst = l := by
              intro l
              induction l with
              | nil => intro _; rfl
              | cons x xs ihl =>
                intro hall
                simp only [List.map_cons]
                rw [ih x (hall x (by simp)),
                  ihl (fun it hit => hall it (by simp [hit]))]
            rw [hmap items hitems, dictGet_dictSet_self d _ _ hg]
          | null => simp [setPathRedacted, hw, hg]
          | bool b => simp [setPathRedacted, hw, hg]
          | num n => simp [setPathRedacted, hw, hg]
          | str s => simp [setPathRedacted, hw, hg]
          | dict d2 => simp [setPathRedacted, hw, hg]
      | null => simp [setPathRedacted, hw]
      | bool b => simp [setPathRedacted, hw]
      | num n => simp [setPathRedacted, hw]
      | str s => simp [setPathRedacted, hw]
      | list items => simp [setPathRedacted, hw]
    | false =>
      cases current with
      | dict d =>
        cases hg : dictGet d head with
        | none => simp [setPathRedacted, hw, hg]
        | some child =>
          cases tail with
          | nil => simp [setPathRedacted, hw, hg] at h
          | cons t ts =>
            rw [setPathRedacted.eq_def] at h ⊢
            simp only [hw, hg, Bool.false_eq_true, if_false, List.isEmpty_cons] at h ⊢
            rw [ih child h, dictGet_dictSet_self d _ _ hg]
      | null => simp [setPathRedacted, hw]
      | bool b => simp [setPathRedacted, hw]
      | num n => simp [setPathRedacted, hw]
      | str s => simp [setPathRedacted, hw]
      | list items => simp [setPathRedacted, hw]

/-- C8: for a list-wildcard segment, path resolution visits every element of
the list stored under the segment's key and applies the remaining path to each
element independently, accumulating the change flag; a missing key or a
non-list value makes the rule skip silently, and any resolution that reports
no change returns the payload it was given. -/
theorem C8_wildcard_visits_every_element
    (d : List (String × Value)) (head k : String) (tail : List String) (v : Value)
    (hw : segmentIsWildcard head = true) (hk : head.dropRight 3 = k) :
    (∀ items : List Value, dictGet d k = some (Value.list items) →
      setPathRedacted (Value.dict d) (head :: tail) v
        = (Value.dict (dictSet d k (Value.list
            (items.map (fun it => (setPathRedacted it tail v).fst)))),
          items.any (fun it => (setPathRedacted it tail v).snd))) ∧
    ((∀ items : List Value, dictGet d k ≠ some (Value.list items)) →
      setPathRedacted (Value.dict d) (head :: tail) v = (Value.dict d, false)) ∧
    (∀ (current : Value) (parts : List String),
      (setPathRedacted current parts v).snd = false →
      (setPathRedacted current parts v).fst = current) := by
  subst hk
  refine ⟨?_, ?_, fun current parts => setPathRedacted_skip_unchanged v parts current⟩
  · intro items hg
    have hany : ∀ l : List Value,
        (l.map (fun item => setPathRedacted item tail v)).any Prod.snd
          = l.any (fun it => (setPathRedacted it tail v).snd) := by
      intro l
      induction l with
      | nil => rfl
      | cons x xs ihl => simp [ihl]
    simp [setPathRedacted, hw, hg, List.map_map, Function.comp_def, hany]
  · intro hne
    cases hg : dictGet d (head.dropRight 3) with
    | none => simp [setPathRedacted, hw, hg]
    | some w =>
      cases w with
      | list items => exact absurd hg (hne items)
      | null => simp [setPathRedacted, hw, hg]
      | bool b => simp [setPathRedacted, hw, hg]
      | num n => simp [setPathRedacted, hw, hg]
      | str s => simp [setPathRedacted, hw, hg]
      | dict d2 => simp [setPathRedacted, hw, hg]

/-- Witness for C8 on the integration-test payload shape: both elements of
the affected_users list are visited and their email leaves replaced. -/
theorem C8_wildcard_visits_every_element_witness :
    segmentIsWildcard "affected_users[*]" = true ∧
    ("affected_users[*]".dropRight 3) = "affected_users" ∧
    setPathRedacted
      (Value.dict [("affected_users", Value.list
        [Value.dict [("name", Value.str "Alice"), ("email", Value.str "alice@agency.gov")],
         Value.dict [("name", Value.str "Bob"), ("email", Value.str "bob@agency.gov")]])])
      ["affected_users[*]", "email"] (Value.str "[REDACTED]")
      = (Value.dict [("affected_users", Value.list
          [Value.dict [("name", Value.str "Alice"), ("email", Value.str "[REDACTED]")],
           Value.dict [("name", Value.str "Bob"), ("email", Value.str "[REDACTED]")]])],
        true) :=
  ⟨by decide, by decide,
    (((C8_wildcard_visits_every_element
      [("affected_users", Value.list
        [Value.dict [("name", Value.str "Alice"), ("email", Value.str "alice@agency.gov")],
         Value.dict [("name", Value.str "Bob"), ("email", Value.str "bob@agency.gov")]])]
      "affected_users[*]" "affected_users" ["email"] (Value.str "[REDACTED]")
      (by decide) (by decide)).1
      [Value.dict [("name", Value.str "Alice"), ("email", Value.str "alice@agency.gov")],
       Value.dict [("name", Value.str "Bob"), ("email", Value.str "bob@agency.gov")]]
      rfl).trans rfl)⟩

/-- flatMap congruence under permutation of the outer list. -/
theorem perm_flatMap {α β : Type} (f : α → List β) {l₁ l₂ : List α}
    (h : l₁.Perm l₂) : (l₁.flatMap f).Perm (l₂.flatMap f) := by
  induction h with
  | nil => exact List.Perm.refl _
  | cons x _ ih => simpa [List.flatMap_cons] using List.Perm.append_left (f x) ih
  | swap x y l =>
    simp only [List.flatMap_cons, ← List.append_assoc]
    exact List.Perm.append_right _ List.perm_append_comm
  | trans _ _ ih1 ih2 => exact ih1.trans ih2

instance : RightCommutative maxStep :=
  ⟨by intro b a₁ a₂; cases b <;> cases a₁ <;> cases a₂ <;> rfl⟩

/-- C4: the aggregate signature is the digest primitive applied to the
canonical payload built only from the highest classification code, the sorted
portion markings, the sorted compartment codes and the entity count; permuting
the entity list and changing the clock tick leave it byte-for-byte
unchanged, for every digest primitive and signing key. -/
theorem C4_signature_stable_under_permutation
    (hmacSha256Hex : String → String → String) (signing_key : Option String)
    (l1 l2 : List AggregationEntity) (t1 t2 : Nat) (hperm : l1.Perm l2) :
    (aggregate hmacSha256Hex l1 signing_key t1).signature
      = (aggregate hmacSha256Hex l2 signing_key t2).signature := by
  have hcls : (l1.filterMap (fun e => e.classification)).Perm
      (l2.filterMap (fun e => e.classification)) := hperm.filterMap _
  have hhigh : highestClassification (l1.filterMap (fun e => e.classification))
      = highestClassification (l2.filterMap (fun e => e.classification)) := by
    unfold highestClassification
    exact hcls.foldl_eq _
  have hpm : sortStrings ((l1.flatMap (fun e => e.portion_markings)).dedup)
      = sortStrings ((l2.flatMap (fun e => e.portion_markings)).dedup) :=
    sortStrings_eq_of_perm (perm_flatMap _ hperm).dedup
  have hcomp : sortCompartments ((l1.flatMap (fun e => e.compartments)).dedup)
      = sortCompartments ((l2.flatMap (fun e => e.compartments)).dedup) :=
    sortCompartments_eq_of_perm (perm_flatMap _ hperm).dedup
  have hlen : l1.length = l2.length := hperm.length_eq
  cases signing_key with
  | none => simp [aggregate]
  | some k =>
    by_cases hk : k.isEmpty
    · simp [aggregate, hk]
    · simp [aggregate, hk, compute_signature, canonicalSignaturePayload,
        hpm, hcomp, hlen, hhigh]

/-- Witness for C4: swapping two entities with distinct classifications,
markings and compartments, under different clock ticks, leaves the signature
unchanged for a concrete digest function. -/
theorem C4_signature_stable_under_permutation_witness :
    ([({ classification := some ClassificationLevel.SECRET
         portion_markings := ["//NOFORN"]
         compartments := [Compartment.NOFORN] } : AggregationEntity),
      { classification := some ClassificationLevel.TOP_SECRET
        portion_markings := ["//HUMINT"]
        compartments := [Compartment.HUMINT] }].Perm
      [({ classification := some ClassificationLevel.TOP_SECRET
          portion_markings := ["//HUMINT"]
          compartments := [Compartment.HUMINT] } : AggregationEntity),
       { classification := some ClassificationLevel.SECRET
         portion_markings := ["//NOFORN"]
         compartments := [Compartment.NOFORN] }]) ∧
    (aggregate (fun key msg => key ++ "|" ++ msg)
      [({ classification := some ClassificationLevel.SECRET
          portion_markings := ["//NOFORN"]
          compartments := [Compartment.NOFORN] } : AggregationEntity),
       { classification := some ClassificationLevel.TOP_SECRET
         portion_markings := ["//HUMINT"]
         compartments := [Compartment.HUMINT] }]
      (some "test-signing-key-12345") 0).signature
      = (aggregate (fun key msg => key ++ "|" ++ msg)
        [({ classification := some ClassificationLevel.TOP_SECRET
            portion_markings := ["//HUMINT"]
            compartments := [Compartment.HUMINT] } : AggregationEntity),
         { classification := some ClassificationLevel.SECRET
           portion_markings := ["//NOFORN"]
           compartments := [Compartment.NOFORN] }]
        (some "test-signing-key-12345") 99).signature :=
  ⟨List.Perm.swap _ _ _,
    C4_signature_stable_under_permutation (fun key msg => key ++ "|" ++ msg)
      (some "test-signing-key-12345") _ _ 0 99 (List.Perm.swap _ _ _)⟩

end Aegis
